import Mathlib

/-!
Verification of the grid-art caching engine of Steam Art Manager
(`src/lib/controllers/CacheController.ts` and
`src/components/core/grids/Grids.svelte`).

The TypeScript controller is shallowly embedded: the process-wide mutable
cache objects (`steamGridsCache`, `nonSteamGridsCache`,
`steamGridSearchCache`, `steamGridSteamAppIdMap`, the
`selectedSteamGridGameId` and `dowloadingGridId` stores) become explicit
state records threaded through the functions; the remote SteamGridDB
client becomes an oracle (`Gateway`); fallible gateway page fetches return
`Except Unit`; every function additionally reports how many gateway calls
of each kind it performed, so "exactly one fetch" claims are provable.
-/

/-- The closed enumeration of art categories (`GridTypes` in `Stores.ts`,
which is outside the provided sources; the constructors follow the spec's
closed list capsule / wide-capsule / hero / logo / icon). -/
inductive GridTypes where
  | Capsule
  | WideCapsule
  | Hero
  | Logo
  | Icon
deriving DecidableEq

/-- The sub-directory name of each art category, used when deriving local
file paths (`get(gridType)` at line 129 of `CacheController.ts`). -/
def GridTypes.dirName : GridTypes → String
  | .Capsule => "Capsule"
  | .WideCapsule => "Wide Capsule"
  | .Hero => "Hero"
  | .Logo => "Logo"
  | .Icon => "Icon"

/-- The two platform kinds (`Platforms` in `Stores.ts`). -/
inductive Platforms where
  | STEAM
  | NON_STEAM
deriving DecidableEq

/-- A SteamGridDB game candidate record (`SGDBGame`): provider id, display
name, and the optional annotated number of result pages. -/
structure SGDBGame where
  id : Nat
  name : String
  numResultPages : Option Nat
deriving DecidableEq

/-- A SteamGridDB image record (`SGDBImage`): remote id and source URL. -/
structure SGDBImage where
  imgId : Nat
  url : String
deriving DecidableEq

/-- JavaScript `String.prototype.lastIndexOf` for a single character over
the character list of the string: index of the last occurrence, `-1` when
absent. -/
def jsLastIndexOf (c : Char) : List Char → Int
  | [] => -1
  | a :: rest =>
    let r := jsLastIndexOf c rest
    if r ≥ 0 then r + 1
    else if a = c then 0 else -1

/-- JavaScript `String.prototype.substring(i)` for a non-negative start
index: the suffix of the string from character index `i`. -/
def jsSubstringFrom (s : String) (i : Nat) : String :=
  ⟨s.toList.drop i⟩

/-- `imageURL.substring(imageURL.lastIndexOf("/") + 1)` (line 128 of
`CacheController.ts`): the final path segment of the URL. -/
def fileNameOf (url : String) : String :=
  jsSubstringFrom url (jsLastIndexOf '/' url.toList + 1).toNat

/-- `path.join` restricted to plain segments, as used on line 129. -/
def pathJoin (a b : String) : String := a ++ "/" ++ b

/-- The local path derivation inside `getGridImage` (lines 128-129):
`path.join(gridCacheDirPath, get(gridType), fileName)` with the file name
being the URL's final path segment. -/
def resolveLocalPath (gridCacheDirPath : String) (tp : GridTypes) (url : String) : String :=
  pathJoin (pathJoin gridCacheDirPath tp.dirName) (fileNameOf url)

/-- The file-system and UI-signal state visible to `getGridImage`: which
local paths exist as files, and the single-slot `dowloadingGridId` store. -/
structure BlobState where
  files : String → Bool
  dowloadingGridId : Option Nat

/-- `getGridImage` (lines 126-156 of `CacheController.ts`).  `downloadOk`
models `RustInterop.downloadGrid(imageURL, localImagePath)`: it reports
whether the download succeeded, and on success the file appears on disk.
The returned `Nat` counts download attempts.  Whether the download
succeeds or fails, the function returns the derived local path. -/
def getGridImage (downloadOk : String → String → Bool)
    (gridCacheDirPath : String) (tp : GridTypes)
    (st : BlobState) (appId : Nat) (imageURL : String) :
    String × BlobState × Nat :=
  let localImagePath := resolveLocalPath gridCacheDirPath tp imageURL
  if st.files localImagePath then
    (localImagePath, st, 0)
  else
    let st1 : BlobState := { st with dowloadingGridId := some appId }
    let success := downloadOk imageURL localImagePath
    let st2 : BlobState :=
      if success then
        { st1 with files := fun p => if p = localImagePath then true else st1.files p }
      else st1
    let st3 : BlobState := { st2 with dowloadingGridId := none }
    (localImagePath, st3, 1)

/-- `n.toString()` on a JavaScript number holding a natural number. -/
def natToStr (n : Nat) : String := toString n

/-- JavaScript truthiness of a possibly-undefined string (`undefined` and
`""` are falsy). -/
def jsFalsyOptStr : Option String → Bool
  | none => true
  | some s => s == ""

/-- The non-steam grids cache (`nonSteamGridsCache`): a three-level
JavaScript object `appId → gridType → page → SGDBImage[]`, with `none`
modelling an absent key at that level. -/
abbrev GridsCache := Nat → Option (GridTypes → Option (Nat → Option (List SGDBImage)))

/-- The by-identity page-fetch capability of the SteamGridDB client
(`this.client.get...sById(appId, ..., page)`); it may fail. -/
abbrev PageGateway := Nat → GridTypes → Nat → Except Unit (List SGDBImage)

/-- Three-level lookup in the non-steam grids cache, mirroring the nested
`Object.keys(...).includes(...)` checks of `fetchGridsForNonSteamGame`. -/
def lookup3 (cache : GridsCache) (appId : Nat) (tp : GridTypes) (page : Nat) :
    Option (List SGDBImage) :=
  match cache appId with
  | none => none
  | some byType =>
    match byType tp with
    | none => none
    | some byPage => byPage page

/-- `fetchGridsForNonSteamGame` (lines 196-228 of `CacheController.ts`):
three-level cache lookup; on a miss at any level the gateway is called for
that exact page and the result inserted at every missing level; a gateway
error propagates without caching.  The `Nat` counts gateway fetches
performed (0 or 1). -/
def fetchGridsForNonSteamGame (gw : PageGateway) (cache : GridsCache)
    (appId : Nat) (tp : GridTypes) (page : Nat) :
    Except Unit (List SGDBImage) × GridsCache × Nat :=
  match cache appId with
  | some byType =>
    match byType tp with
    | some byPage =>
      match byPage page with
      | some grids => (.ok grids, cache, 0)
      | none =>
        match gw appId tp page with
        | .ok grids =>
          (.ok grids,
            fun a => if a = appId then
                some (fun t => if t = tp then
                        some (fun p => if p = page then some grids else byPage p)
                      else byType t)
              else cache a, 1)
        | .error e => (.error e, cache, 1)
    | none =>
      match gw appId tp page with
      | .ok grids =>
        (.ok grids,
          fun a => if a = appId then
              some (fun t => if t = tp then
                      some (fun p => if p = page then some grids else none)
                    else byType t)
            else cache a, 1)
      | .error e => (.error e, cache, 1)
  | none =>
    match gw appId tp page with
    | .ok grids =>
      (.ok grids,
        fun a => if a = appId then
            some (fun t => if t = tp then
                    some (fun p => if p = page then some grids else none)
                  else none)
          else cache a, 1)
    | .error e => (.error e, cache, 1)

/-- `getNumPages` (lines 238-243): the placeholder that annotates every
candidate with `numResultPages = 1` pending SGDB API V3. -/
def getNumPages (results : List SGDBGame) : List SGDBGame :=
  results.map (fun game => { game with numResultPages := some 1 })

/-- The `numPages` computation of `setAvailableSgdbGamesOnStateChange`
(line 105 of `Grids.svelte`):
`searchCache[selectedAppId]?.find(g => g.id.toString() == $selectedSteamGridGameId)?.numResultPages ?? 3`. -/
def numPagesOnStateChange (searchCache : Nat → Option (List SGDBGame))
    (selectedAppId : Nat) (selectedSteamGridGameId : String) : Nat :=
  match searchCache selectedAppId with
  | none => 3
  | some games =>
    match games.find? (fun g => natToStr g.id == selectedSteamGridGameId) with
    | none => 3
    | some g => g.numResultPages.getD 3

/-- The per-candidate page-walk of `cacheAllGridsForGame` (lines 256-270):
`numPages` starts at 0 and doubles as the next page index; each iteration
fetches through the grid result cache; a non-empty page increments
`numPages`, an empty page or an error breaks the loop.  `fuel` bounds the
unbounded `while (true)`; the last component counts iterations, i.e. page
fetches issued through the grid result cache. -/
def cacheAllGridsLoop (gw : PageGateway) (gameId : Nat) (tp : GridTypes) :
    Nat → GridsCache → Nat → Nat × GridsCache × Nat
  | 0, cache, numPages => (numPages, cache, 0)
  | fuel + 1, cache, numPages =>
    match fetchGridsForNonSteamGame gw cache gameId tp numPages with
    | (.ok grids, cache', _) =>
      if grids.length > 0 then
        let r := cacheAllGridsLoop gw gameId tp fuel cache' (numPages + 1)
        (r.1, r.2.1, r.2.2 + 1)
      else (numPages, cache', 1)
    | (.error _, cache', _) => (numPages, cache', 1)

/-- `cacheAllGridsForGame` (lines 252-278): annotates each candidate with
the number of non-empty pages discovered by the page-walk.  The JavaScript
runs candidates under `Promise.all`; the embedding threads the cache
sequentially, which coincides with it for the single-candidate lists the
theorems are about. -/
def cacheAllGridsForGame (gw : PageGateway) (tp : GridTypes) (fuel : Nat)
    (cache : GridsCache) : List SGDBGame → List SGDBGame × GridsCache × Nat
  | [] => ([], cache, 0)
  | game :: rest =>
    let r := cacheAllGridsLoop gw game.id tp fuel cache 0
    let rs := cacheAllGridsForGame gw tp fuel r.2.1 rest
    ({ game with numResultPages := some r.1 } :: rs.1, rs.2.1, r.2.2 + rs.2.2)

/-- The remote SteamGridDB client as an oracle (`this.client`). -/
structure Gateway where
  searchGame : String → List SGDBGame
  getGameBySteamAppId : Nat → SGDBGame
  getGridsById : PageGateway

/-- The process-wide mutable state touched by `fetchGrids`: the two grid
caches, the search cache, the steam-appid-to-SGDB-id map, and the
`selectedSteamGridGameId` store. -/
structure CCState where
  steamGridsCache : Nat → Option (GridTypes → Option (List SGDBImage))
  nonSteamGridsCache : GridsCache
  steamGridSearchCache : Nat → Option (List SGDBGame)
  steamGridSteamAppIdMap : Nat → Option String
  selectedSteamGridGameId : String

/-- How many gateway calls of each kind a `fetchGrids` run performed. -/
structure FetchCounts where
  searches : Nat
  idLookups : Nat
  pageFetches : Nat
deriving DecidableEq

/-- The search-cache lookup inside `fetchGrids` (lines 297-304 and
329-336): return the cached candidate list when present, else search by
name, annotate page counts via `getNumPages`, store, and return.  The
`Nat` counts name-search gateway calls. -/
def getCandidates (gw : Gateway) (gameName : String)
    (searchCache : Nat → Option (List SGDBGame)) (appId : Nat) :
    List SGDBGame × (Nat → Option (List SGDBGame)) × Nat :=
  match searchCache appId with
  | some results => (results, searchCache, 0)
  | none =>
    let results := getNumPages (gw.searchGame gameName)
    (results, fun k => if k = appId then some results else searchCache k, 1)

/-- The identity-map step of the steam branch (lines 306-312):
`let gameId = steamGridSteamAppIdMap[appId]; if (!gameId) { ... }` with
the resolved `gameInfo.id.toString()` cached in the map.  The `Nat`
counts `getGameBySteamAppId` gateway calls. -/
def resolveSteamGridGameId (gw : Gateway) (idMap : Nat → Option String)
    (appId : Nat) : String × (Nat → Option String) × Nat :=
  if jsFalsyOptStr (idMap appId) then
    let gid := natToStr (gw.getGameBySteamAppId appId).id
    (gid, fun k => if k = appId then some gid else idMap k, 1)
  else ((idMap appId).getD "", idMap, 0)

/-- The candidate chooser of the steam branch (lines 314-315):
`selectedSteamGridId ? results.find(g => g.id.toString() == selectedSteamGridId)
: results.find(g => g.id.toString() == gameId)`, falling back to
`results[0]` when unmatched and the list is non-empty. -/
def choosenResultSteam (results : List SGDBGame) (sel : Option String)
    (gameId : String) : Option SGDBGame :=
  let c0 := if jsFalsyOptStr sel then
      results.find? (fun g => natToStr g.id == gameId)
    else
      results.find? (fun g => natToStr g.id == sel.getD "")
  match c0 with
  | some c => some c
  | none => if 0 < results.length then results.head? else none

/-- The candidate chooser of the non-steam branch (lines 338-339): like
the steam one, but the automatic branch matches on
`g.name == gameName`. -/
def choosenResultNonSteam (results : List SGDBGame) (sel : Option String)
    (gameName : String) : Option SGDBGame :=
  let c0 := if jsFalsyOptStr sel then
      results.find? (fun g => g.name == gameName)
    else
      results.find? (fun g => natToStr g.id == sel.getD "")
  match c0 with
  | some c => some c
  | none => if 0 < results.length then results.head? else none

/-- The candidate `fetchGrids` would choose, as a function of its inputs
(used to state frame properties of `fetchGrids` without repeating the
branch structure). -/
def fetchGridsChosen (gw : Gateway) (platform : Platforms) (gameName : String)
    (st : CCState) (appId : Nat) (sel : Option String) : Option SGDBGame :=
  match platform with
  | .STEAM =>
    let rc := getCandidates gw gameName st.steamGridSearchCache appId
    let ri := resolveSteamGridGameId gw st.steamGridSteamAppIdMap appId
    choosenResultSteam rc.1 sel ri.1
  | .NON_STEAM =>
    let rc := getCandidates gw gameName st.steamGridSearchCache appId
    choosenResultNonSteam rc.1 sel gameName

/-- `fetchGrids` (lines 288-350 of `CacheController.ts`).  The store reads
(`gridType`, `currentPlatform`, `selectedGameName`) are parameters; the
candidate search cache is updated in place exactly as the shared mutable
object is in JavaScript; `choosenResult?.id` truthiness becomes the
`c.id ≠ 0` guard; on a chosen candidate the page is fetched through the
non-steam grid result cache and `selectedSteamGridGameId` is set, else the
result is the empty list. -/
def fetchGrids (gw : Gateway) (tp : GridTypes) (platform : Platforms)
    (gameName : String) (st : CCState) (appId : Nat) (page : Nat)
    (selectedSteamGridId : Option String) :
    Except Unit (List SGDBImage) × CCState × FetchCounts :=
  match platform with
  | .STEAM =>
    let rc := getCandidates gw gameName st.steamGridSearchCache appId
    let st1 : CCState := { st with steamGridSearchCache := rc.2.1 }
    let ri := resolveSteamGridGameId gw st1.steamGridSteamAppIdMap appId
    let st2 : CCState := { st1 with steamGridSteamAppIdMap := ri.2.1 }
    match choosenResultSteam rc.1 selectedSteamGridId ri.1 with
    | some c =>
      if c.id ≠ 0 then
        let pr := fetchGridsForNonSteamGame gw.getGridsById st2.nonSteamGridsCache c.id tp page
        (pr.1,
          { st2 with nonSteamGridsCache := pr.2.1,
                     selectedSteamGridGameId := natToStr c.id },
          ⟨rc.2.2, ri.2.2, pr.2.2⟩)
      else (.ok [], st2, ⟨rc.2.2, ri.2.2, 0⟩)
    | none => (.ok [], st2, ⟨rc.2.2, ri.2.2, 0⟩)
  | .NON_STEAM =>
    let rc := getCandidates gw gameName st.steamGridSearchCache appId
    let st1 : CCState := { st with steamGridSearchCache := rc.2.1 }
    match choosenResultNonSteam rc.1 selectedSteamGridId gameName with
    | some c =>
      if c.id ≠ 0 then
        let pr := fetchGridsForNonSteamGame gw.getGridsById st1.nonSteamGridsCache c.id tp page
        (pr.1,
          { st1 with nonSteamGridsCache := pr.2.1,
                     selectedSteamGridGameId := natToStr c.id },
          ⟨rc.2.2, 0, pr.2.2⟩)
      else (.ok [], st1, ⟨rc.2.2, 0, 0⟩)
    | none => (.ok [], st1, ⟨rc.2.2, 0, 0⟩)

/-- `fetchGridsForSteamGame` (lines 165-186): the two-level
(`appId → gridType`) native-platform grid cache.  Private to the
controller and not invoked by any code in the repository; included because
it is the component that owns `steamGridsCache`. -/
def fetchGridsForSteamGame (gwSteam : Nat → GridTypes → List SGDBImage)
    (cache : Nat → Option (GridTypes → Option (List SGDBImage)))
    (appId : Nat) (tp : GridTypes) :
    List SGDBImage × (Nat → Option (GridTypes → Option (List SGDBImage))) × Nat :=
  match cache appId with
  | some byType =>
    match byType tp with
    | some grids => (grids, cache, 0)
    | none =>
      let grids := gwSteam appId tp
      (grids,
        fun a => if a = appId then
            some (fun t => if t = tp then some grids else byType t)
          else cache a, 1)
  | none =>
    let grids := gwSteam appId tp
    (grids,
      fun a => if a = appId then
          some (fun t => if t = tp then some grids else none)
        else cache a, 1)

/-- A concrete image record used to exercise the theorems. -/
def img1 : SGDBImage := ⟨1, "http://cdn/img1.png"⟩

/-- A concrete search candidate used to exercise the theorems. -/
def gameFoo : SGDBGame := ⟨5, "Foo", none⟩

/-- The empty non-steam grids cache. -/
def emptyGridsCache : GridsCache := fun _ => none

/-- A page gateway with one non-empty page (page 0) and empty pages
afterwards. -/
def gwPages1 : PageGateway := fun _ _ p => if p = 0 then .ok [img1] else .ok []

/-- A page gateway that always returns the same single image. -/
def gwOk : PageGateway := fun _ _ _ => .ok [img1]

/-- A gateway whose name search finds `gameFoo` and whose direct lookup
resolves to it. -/
def gwA : Gateway := ⟨fun _ => [gameFoo], fun _ => gameFoo, gwOk⟩

/-- A gateway whose name search finds nothing. -/
def gwEmptySearch : Gateway := ⟨fun _ => [], fun _ => gameFoo, gwOk⟩

/-- The controller state at session start: every cache empty and
`selectedSteamGridGameId` at its initial value. -/
def st0 : CCState := ⟨fun _ => none, fun _ => none, fun _ => none, fun _ => none, "None"⟩

/-- A blob-store state with no files on disk and the download signal
idle. -/
def blob0 : BlobState := ⟨fun _ => false, none⟩

/-- A download capability whose downloads always fail. -/
def dlFail : String → String → Bool := fun _ _ => false

/-- A cache hit in the non-steam grid result cache returns the cached list
and performs no gateway fetch. -/
theorem fetchGridsForNonSteamGame_hit (gw : PageGateway) (cache : GridsCache)
    (a : Nat) (t : GridTypes) (p : Nat) (gs : List SGDBImage)
    (h : lookup3 cache a t p = some gs) :
    fetchGridsForNonSteamGame gw cache a t p = (.ok gs, cache, 0) := by
  rcases hc : cache a with _ | byType
  · simp [lookup3, hc] at h
  · rcases ht : byType t with _ | byPage
    · simp [lookup3, hc, ht] at h
    · have hp : byPage p = some gs := by simpa [lookup3, hc, ht] using h
      simp [fetchGridsForNonSteamGame, hc, ht, hp]

/-- A cache miss with a succeeding gateway performs exactly one fetch and
inserts the result at the missed triple, leaving every other triple's
lookup unchanged. -/
theorem fetchGridsForNonSteamGame_miss_ok (gw : PageGateway) (cache : GridsCache)
    (a : Nat) (t : GridTypes) (p : Nat) (gs : List SGDBImage)
    (hmiss : lookup3 cache a t p = none) (hgw : gw a t p = .ok gs) :
    ∃ cache', fetchGridsForNonSteamGame gw cache a t p = (.ok gs, cache', 1)
      ∧ ∀ a' t' p', lookup3 cache' a' t' p'
          = if a' = a ∧ t' = t ∧ p' = p then some gs else lookup3 cache a' t' p' := by
  rcases hc : cache a with _ | byType
  · refine ⟨fun a' => if a' = a then
        some (fun t'' => if t'' = t then
                some (fun p'' => if p'' = p then some gs else none)
              else none)
      else cache a', by simp [fetchGridsForNonSteamGame, hc, hgw], ?_⟩
    intro a' t' p'
    by_cases ha : a' = a
    · subst ha
      by_cases ht' : t' = t
      · subst ht'
        by_cases hp' : p' = p
        · subst hp'; simp [lookup3]
        · simp [lookup3, hc, hp']
      · simp [lookup3, hc, ht']
    · simp [lookup3, ha]
  · rcases ht : byType t with _ | byPage
    · refine ⟨fun a' => if a' = a then
          some (fun t'' => if t'' = t then
                  some (fun p'' => if p'' = p then some gs else none)
                else byType t'')
        else cache a', by simp [fetchGridsForNonSteamGame, hc, ht, hgw], ?_⟩
      intro a' t' p'
      by_cases ha : a' = a
      · subst ha
        by_cases ht' : t' = t
        · subst ht'
          by_cases hp' : p' = p
          · subst hp'; simp [lookup3]
          · simp [lookup3, hc, ht, hp']
        · simp [lookup3, hc, ht']
      · simp [lookup3, ha]
    · have hp : byPage p = none := by simpa [lookup3, hc, ht] using hmiss
      refine ⟨fun a' => if a' = a then
            some (fun t'' => if t'' = t then
                    some (fun p'' => if p'' = p then some gs else byPage p'')
                  else byType t'')
          else cache a', by simp [fetchGridsForNonSteamGame, hc, ht, hp, hgw], ?_⟩
      intro a' t' p'
      by_cases ha : a' = a
      · subst ha
        by_cases ht' : t' = t
        · subst ht'
          by_cases hp' : p' = p
          · subst hp'; simp [lookup3]
          · simp [lookup3, hc, ht, hp']
        · simp [lookup3, hc, ht']
      · simp [lookup3, ha]

/-- A cache miss with a failing gateway propagates the error, still counts
one fetch, and caches nothing. -/
theorem fetchGridsForNonSteamGame_miss_error (gw : PageGateway) (cache : GridsCache)
    (a : Nat) (t : GridTypes) (p : Nat) (e : Unit)
    (hmiss : lookup3 cache a t p = none) (hgw : gw a t p = .error e) :
    fetchGridsForNonSteamGame gw cache a t p = (.error e, cache, 1) := by
  rcases hc : cache a with _ | byType
  · simp [fetchGridsForNonSteamGame, hc, hgw]
  · rcases ht : byType t with _ | byPage
    · simp [fetchGridsForNonSteamGame, hc, ht, hgw]
    · have hp : byPage p = none := by simpa [lookup3, hc, ht] using hmiss
      simp [fetchGridsForNonSteamGame, hc, ht, hp, hgw]

/-- The page-walk starting at page `j`, over `N` consecutive non-empty
pages followed by one empty-or-failing page, ends at `j + N` after
exactly `N + 1` page fetches through the grid result cache, given enough
fuel and a cache empty at the walked key. -/
theorem cacheAllGridsLoop_spec (gw : PageGateway) (gameId : Nat) (tp : GridTypes)
    (N : Nat) :
    ∀ (j fuel : Nat) (cache : GridsCache),
      N + 1 ≤ fuel →
      (∀ p, j ≤ p → lookup3 cache gameId tp p = none) →
      (∀ i, i < N → ∃ l, gw gameId tp (j + i) = .ok l ∧ l ≠ []) →
      (gw gameId tp (j + N) = .ok [] ∨ gw gameId tp (j + N) = .error ()) →
      ∃ cache', cacheAllGridsLoop gw gameId tp fuel cache j = (j + N, cache', N + 1) := by
  induction N with
  | zero =>
    intro j fuel cache hfuel hempty _ hend
    obtain ⟨f, rfl⟩ : ∃ f, fuel = f + 1 := ⟨fuel - 1, by omega⟩
    have hm := hempty j le_rfl
    rcases hend with hend | hend
    · obtain ⟨c', hc', -⟩ := fetchGridsForNonSteamGame_miss_ok gw cache gameId tp j []
        hm (by simpa using hend)
      exact ⟨c', by simp [cacheAllGridsLoop, hc']⟩
    · have h := fetchGridsForNonSteamGame_miss_error gw cache gameId tp j ()
        hm (by simpa using hend)
      exact ⟨cache, by simp [cacheAllGridsLoop, h]⟩
  | succ N ih =>
    intro j fuel cache hfuel hempty hpages hend
    obtain ⟨f, rfl⟩ : ∃ f, fuel = f + 1 := ⟨fuel - 1, by omega⟩
    obtain ⟨l, hl, hlne⟩ := hpages 0 (Nat.succ_pos N)
    have hm := hempty j le_rfl
    obtain ⟨c1, hc1, hframe⟩ := fetchGridsForNonSteamGame_miss_ok gw cache gameId tp j l
      hm (by simpa using hl)
    have hempty1 : ∀ p, j + 1 ≤ p → lookup3 c1 gameId tp p = none := by
      intro p hp
      have hne : ¬(gameId = gameId ∧ tp = tp ∧ p = j) := by
        rintro ⟨-, -, rfl⟩; omega
      rw [hframe, if_neg hne]
      exact hempty p (by omega)
    have hpages1 : ∀ i, i < N → ∃ l', gw gameId tp (j + 1 + i) = .ok l' ∧ l' ≠ [] := by
      intro i hi
      have h := hpages (i + 1) (by omega)
      have harith : j + (i + 1) = j + 1 + i := by omega
      rwa [harith] at h
    have hend1 : gw gameId tp (j + 1 + N) = .ok [] ∨ gw gameId tp (j + 1 + N) = .error () := by
      have harith : j + 1 + N = j + (N + 1) := by omega
      rw [harith]; exact hend
    obtain ⟨c', hc'⟩ := ih (j + 1) f c1 (by omega) hempty1 hpages1 hend1
    refine ⟨c', ?_⟩
    have hlen : 0 < l.length := List.length_pos.mpr hlne
    have harith : j + 1 + N = j + (N + 1) := by omega
    simp only [cacheAllGridsLoop, hc1, hlen, if_pos, hc', harith]

/-- C5: a candidate with exactly `N` non-empty result pages followed by an
empty page (or a failing fetch, which terminates the walk the same way)
gets `numResultPages = N` recorded by `cacheAllGridsForGame`, at the cost
of exactly `N + 1` page fetches through the grid result cache. -/
theorem cacheAllGridsForGame_pagination (gw : PageGateway) (tp : GridTypes)
    (game : SGDBGame) (N fuel : Nat) (cache : GridsCache)
    (hfuel : N + 1 ≤ fuel)
    (hempty : ∀ p, lookup3 cache game.id tp p = none)
    (hpages : ∀ i, i < N → ∃ l, gw game.id tp i = .ok l ∧ l ≠ [])
    (hend : gw game.id tp N = .ok [] ∨ gw game.id tp N = .error ()) :
    ∃ cache', cacheAllGridsForGame gw tp fuel cache [game]
      = ([{ game with numResultPages := some N }], cache', N + 1) := by
  obtain ⟨c', hc'⟩ := cacheAllGridsLoop_spec gw game.id tp N 0 fuel cache hfuel
    (fun p _ => hempty p) (by simpa using hpages) (by simpa using hend)
  exact ⟨c', by simp [cacheAllGridsForGame, hc']⟩

/-- Witness for C5 at a concrete input: one non-empty page then an empty
page records a page count of 1 using 2 fetches. -/
theorem cacheAllGridsForGame_pagination_witness :
    ∃ cache', cacheAllGridsForGame gwPages1 .Hero 2 emptyGridsCache [gameFoo]
      = ([{ gameFoo with numResultPages := some 1 }], cache', 2) :=
  cacheAllGridsForGame_pagination gwPages1 .Hero gameFoo 1 2 emptyGridsCache
    (by omega) (fun p => rfl)
    (by intro i hi
        have hz : i = 0 := by omega
        subst hz
        exact ⟨[img1], rfl, by simp⟩)
    (Or.inl rfl)

/-- C1: an unfetched (providerId, category, page) triple makes `getPage`
(`fetchGridsForNonSteamGame`) perform exactly one gateway fetch for that
page and insert the result at all missing cache levels, and the repeated
call performs zero fetches and returns the identical cached list. -/
theorem fetchGridsForNonSteamGame_fetch_once (gw : PageGateway) (cache : GridsCache)
    (a : Nat) (t : GridTypes) (p : Nat) (gs : List SGDBImage)
    (hmiss : lookup3 cache a t p = none) (hgw : gw a t p = .ok gs) :
    ∃ cache', fetchGridsForNonSteamGame gw cache a t p = (.ok gs, cache', 1)
      ∧ lookup3 cache' a t p = some gs
      ∧ fetchGridsForNonSteamGame gw cache' a t p = (.ok gs, cache', 0) := by
  obtain ⟨c', h1, hl⟩ := fetchGridsForNonSteamGame_miss_ok gw cache a t p gs hmiss hgw
  have hhit : lookup3 c' a t p = some gs := by simpa using hl a t p
  exact ⟨c', h1, hhit, fetchGridsForNonSteamGame_hit gw c' a t p gs hhit⟩

/-- Witness for C1 at a concrete input. -/
theorem fetchGridsForNonSteamGame_fetch_once_witness :
    ∃ cache', fetchGridsForNonSteamGame gwOk emptyGridsCache 7 .Hero 0
        = (.ok [img1], cache', 1)
      ∧ lookup3 cache' 7 .Hero 0 = some [img1]
      ∧ fetchGridsForNonSteamGame gwOk cache' 7 .Hero 0 = (.ok [img1], cache', 0) :=
  fetchGridsForNonSteamGame_fetch_once gwOk emptyGridsCache 7 .Hero 0 [img1] rfl rfl

/-- C2: a first `getCandidates` call (the search-cache lookup inside
`fetchGrids`) for an unsearched app performs exactly one name-search call
and stores the resulting candidate list; a second call with the same id
(whatever the name) performs zero additional searches and returns the
identical list with the cache unchanged. -/
theorem getCandidates_search_once (gw : Gateway) (gameName gameName2 : String)
    (searchCache : Nat → Option (List SGDBGame)) (appId : Nat)
    (hmiss : searchCache appId = none) :
    (getCandidates gw gameName searchCache appId).2.2 = 1
    ∧ (getCandidates gw gameName searchCache appId).2.1 appId
        = some (getCandidates gw gameName searchCache appId).1
    ∧ getCandidates gw gameName2 (getCandidates gw gameName searchCache appId).2.1 appId
        = ((getCandidates gw gameName searchCache appId).1,
           (getCandidates gw gameName searchCache appId).2.1, 0) := by
  simp [getCandidates, hmiss]

/-- Witness for C2 at a concrete input. -/
theorem getCandidates_search_once_witness :
    (getCandidates gwA "Foo" (fun _ => none) 100).2.2 = 1
    ∧ (getCandidates gwA "Foo" (fun _ => none) 100).2.1 100
        = some (getCandidates gwA "Foo" (fun _ => none) 100).1
    ∧ getCandidates gwA "Bar" (getCandidates gwA "Foo" (fun _ => none) 100).2.1 100
        = ((getCandidates gwA "Foo" (fun _ => none) 100).1,
           (getCandidates gwA "Foo" (fun _ => none) 100).2.1, 0) :=
  getCandidates_search_once gwA "Foo" "Bar" (fun _ => none) 100 rfl

/-- C3: candidate resolution in `fetchGrids`: an explicit selection found
among the candidates is chosen (either platform); otherwise native entries
prefer the candidate matching the directly-resolved provider id and
non-native entries the candidate whose name equals the display name, each
falling back to the first candidate; in particular a non-native entry
named "Bar" with candidates Baz(id 1), Bar(id 2) resolves to id 2. -/
theorem fetchGrids_candidate_selection :
    (∀ (results : List SGDBGame) (s gameId gameName : String) (c : SGDBGame),
       s ≠ "" →
       results.find? (fun g => natToStr g.id == s) = some c →
       choosenResultSteam results (some s) gameId = some c
       ∧ choosenResultNonSteam results (some s) gameName = some c)
    ∧ (∀ (results : List SGDBGame) (gameId : String) (c : SGDBGame),
       results.find? (fun g => natToStr g.id == gameId) = some c →
       choosenResultSteam results none gameId = some c)
    ∧ (∀ (r : SGDBGame) (rest : List SGDBGame) (gameId : String),
       (r :: rest).find? (fun g => natToStr g.id == gameId) = none →
       choosenResultSteam (r :: rest) none gameId = some r)
    ∧ (∀ (results : List SGDBGame) (gameName : String) (c : SGDBGame),
       results.find? (fun g => g.name == gameName) = some c →
       choosenResultNonSteam results none gameName = some c)
    ∧ (∀ (r : SGDBGame) (rest : List SGDBGame) (gameName : String),
       (r :: rest).find? (fun g => g.name == gameName) = none →
       choosenResultNonSteam (r :: rest) none gameName = some r)
    ∧ choosenResultNonSteam [⟨1, "Baz", none⟩, ⟨2, "Bar", none⟩] none "Bar"
        = some ⟨2, "Bar", none⟩ := by
  refine ⟨?_, ?_, ?_, ?_, ?_, by decide⟩
  · intro results s gameId gameName c hs hfind
    have hf : jsFalsyOptStr (some s) = false := by simp [jsFalsyOptStr, hs]
    constructor <;> simp [choosenResultSteam, choosenResultNonSteam, hf, hfind]
  · intro results gameId c hfind
    simp [choosenResultSteam, jsFalsyOptStr, hfind]
  · intro r rest gameId hfind
    simp [choosenResultSteam, jsFalsyOptStr, hfind]
  · intro results gameName c hfind
    simp [choosenResultNonSteam, jsFalsyOptStr, hfind]
  · intro r rest gameName hfind
    simp [choosenResultNonSteam, jsFalsyOptStr, hfind]

/-- Witness for C3 at a concrete input: an explicit selection of id 2 is
honored regardless of the resolved id. -/
theorem fetchGrids_candidate_selection_witness :
    choosenResultSteam [⟨1, "Baz", none⟩, ⟨2, "Bar", none⟩] (some "2") "1"
      = some ⟨2, "Bar", none⟩ :=
  (fetchGrids_candidate_selection.1 [⟨1, "Baz", none⟩, ⟨2, "Bar", none⟩]
    "2" "1" "Bar" ⟨2, "Bar", none⟩ (by decide) (by decide)).1

/-- C4: when the candidate list is empty, `fetchGrids` returns the empty
list (not an error), performs zero page fetches, and leaves the active
provider-game identity store unchanged. -/
theorem fetchGrids_no_candidates (gw : Gateway) (tp : GridTypes) (platform : Platforms)
    (gameName : String) (st : CCState) (appId page : Nat) (sel : Option String)
    (hempty : (getCandidates gw gameName st.steamGridSearchCache appId).1 = []) :
    (fetchGrids gw tp platform gameName st appId page sel).1 = .ok []
    ∧ ((fetchGrids gw tp platform gameName st appId page sel).2.1).selectedSteamGridGameId
        = st.selectedSteamGridGameId
    ∧ ((fetchGrids gw tp platform gameName st appId page sel).2.2).pageFetches = 0 := by
  have hnone1 : ∀ (s : Option String) (g : String),
      choosenResultSteam (getCandidates gw gameName st.steamGridSearchCache appId).1 s g
        = none := by
    intro s g; rw [hempty]; simp [choosenResultSteam]
  have hnone2 : ∀ (s : Option String) (g : String),
      choosenResultNonSteam (getCandidates gw gameName st.steamGridSearchCache appId).1 s g
        = none := by
    intro s g; rw [hempty]; simp [choosenResultNonSteam]
  cases platform
  · simp [fetchGrids, hnone1]
  · simp [fetchGrids, hnone2]

/-- Witness for C4 at a concrete input. -/
theorem fetchGrids_no_candidates_witness :
    (fetchGrids gwEmptySearch .Capsule .NON_STEAM "Foo" st0 10 0 none).1 = .ok []
    ∧ ((fetchGrids gwEmptySearch .Capsule .NON_STEAM "Foo" st0 10 0 none).2.1).selectedSteamGridGameId
        = st0.selectedSteamGridGameId
    ∧ ((fetchGrids gwEmptySearch .Capsule .NON_STEAM "Foo" st0 10 0 none).2.2).pageFetches = 0 :=
  fetchGrids_no_candidates gwEmptySearch .Capsule .NON_STEAM "Foo" st0 10 0 none rfl

/-- C6 counterexample: `getNumPages` annotates a candidate with the
placeholder page count 1, not 3. -/
theorem getNumPages_placeholder_not_three :
    (getNumPages [gameFoo]).map SGDBGame.numResultPages = [some 1]
    ∧ ¬((getNumPages [gameFoo]).map SGDBGame.numResultPages = [some 3]) := by
  decide

/-- C6 amended: `getNumPages` annotates every candidate in the results
list with the fixed placeholder page count 1; the page count 3 appears
only as the UI-side `?? 3` fallback of `setAvailableSgdbGamesOnStateChange`,
used when no annotated count is found. -/
theorem getNumPages_placeholder (results : List SGDBGame) :
    (getNumPages results).map SGDBGame.numResultPages = results.map (fun _ => some 1)
    ∧ ∀ (searchCache : Nat → Option (List SGDBGame)) (appId : Nat) (sel : String),
        searchCache appId = none → numPagesOnStateChange searchCache appId sel = 3 := by
  constructor
  · simp only [getNumPages, List.map_map]
    rfl
  · intro searchCache appId sel h
    simp [numPagesOnStateChange, h]

/-- Witness for the amended C6 at a concrete input. -/
theorem getNumPages_placeholder_witness :
    (getNumPages [gameFoo]).map SGDBGame.numResultPages = [gameFoo].map (fun _ => some 1)
    ∧ numPagesOnStateChange (fun _ => none) 3 "None" = 3 :=
  ⟨(getNumPages_placeholder [gameFoo]).1,
   (getNumPages_placeholder [gameFoo]).2 (fun _ => none) 3 "None" rfl⟩

/-- C7: when the derived local file is absent and the download fails,
`getGridImage` still resets the download-in-progress signal to idle and
returns the derived local path without propagating the failure, even
though no file exists at that path. -/
theorem getGridImage_download_failure (downloadOk : String → String → Bool)
    (root : String) (tp : GridTypes) (st : BlobState) (appId : Nat) (url : String)
    (hmiss : st.files (resolveLocalPath root tp url) = false)
    (hfail : downloadOk url (resolveLocalPath root tp url) = false) :
    (getGridImage downloadOk root tp st appId url).1 = resolveLocalPath root tp url
    ∧ ((getGridImage downloadOk root tp st appId url).2.1).dowloadingGridId = none
    ∧ ((getGridImage downloadOk root tp st appId url).2.1).files (resolveLocalPath root tp url)
        = false := by
  simp [getGridImage, hmiss, hfail]

/-- Witness for C7 at a concrete input. -/
theorem getGridImage_download_failure_witness :
    (getGridImage dlFail "cache/grids" .Capsule blob0 10 "http://cdn/img1.png").1
        = resolveLocalPath "cache/grids" .Capsule "http://cdn/img1.png"
    ∧ ((getGridImage dlFail "cache/grids" .Capsule blob0 10 "http://cdn/img1.png").2.1).dowloadingGridId
        = none
    ∧ ((getGridImage dlFail "cache/grids" .Capsule blob0 10 "http://cdn/img1.png").2.1).files
        (resolveLocalPath "cache/grids" .Capsule "http://cdn/img1.png") = false :=
  getGridImage_download_failure dlFail "cache/grids" .Capsule blob0 10
    "http://cdn/img1.png" rfl rfl

/-- C8: the local-path derivation is pure and deterministic — the path
`getGridImage` returns is `resolveLocalPath` of the inputs alone,
independent of file-system or download state — and any two URLs sharing a
final path segment under the same category yield the same path. -/
theorem resolveLocalPath_deterministic (root : String) (tp : GridTypes) :
    (∀ (downloadOk : String → String → Bool) (st : BlobState) (appId : Nat) (url : String),
        (getGridImage downloadOk root tp st appId url).1 = resolveLocalPath root tp url)
    ∧ (∀ u₁ u₂ : String, fileNameOf u₁ = fileNameOf u₂ →
        resolveLocalPath root tp u₁ = resolveLocalPath root tp u₂) := by
  constructor
  · intro downloadOk st appId url
    rcases hb : st.files (resolveLocalPath root tp url) <;> simp [getGridImage, hb]
  · intro u₁ u₂ h
    simp [resolveLocalPath, h]

/-- Witness for C8: two distinct URLs with the same basename collide. -/
theorem resolveLocalPath_deterministic_witness :
    resolveLocalPath "cache/grids" .Capsule "http://a.com/x/img.png"
      = resolveLocalPath "cache/grids" .Capsule "http://b.org/y/img.png" :=
  (resolveLocalPath_deterministic "cache/grids" .Capsule).2
    "http://a.com/x/img.png" "http://b.org/y/img.png" (by decide)

/-- C9 counterexample: a native-platform (STEAM) run of `fetchGrids` with
empty caches performs its page fetch against the non-steam grid cache —
which gains the entry — while the native-platform `steamGridsCache` is
left untouched, refuting the claimed routing of native fetches to the
native instance. -/
theorem fetchGrids_steam_routes_to_nonsteam_counterexample :
    ((fetchGrids gwA .Capsule .STEAM "Foo" st0 10 0 none).2.1).steamGridsCache
        = st0.steamGridsCache
    ∧ lookup3 ((fetchGrids gwA .Capsule .STEAM "Foo" st0 10 0 none).2.1).nonSteamGridsCache
        5 .Capsule 0 = some [img1]
    ∧ st0.steamGridsCache 5 = none
    ∧ ((fetchGrids gwA .Capsule .STEAM "Foo" st0 10 0 none).2.2).pageFetches = 1 := by
  exact ⟨rfl, rfl, rfl, rfl⟩

/-- C9 amended: the grid result cache does consist of two parallel
instances, but `fetchGrids` routes every page fetch — on behalf of
native-platform and non-native entries alike — through the non-native
instance and leaves `steamGridsCache` unchanged; the native instance is
consulted and populated only by the never-invoked
`fetchGridsForSteamGame`. -/
theorem fetchGrids_routes_page_fetches (gw : Gateway) (tp : GridTypes)
    (platform : Platforms) (gameName : String) (st : CCState)
    (appId page : Nat) (sel : Option String) :
    ((fetchGrids gw tp platform gameName st appId page sel).2.1).steamGridsCache
        = st.steamGridsCache
    ∧ (∀ c : SGDBGame,
        fetchGridsChosen gw platform gameName st appId sel = some c →
        c.id ≠ 0 →
        ((fetchGrids gw tp platform gameName st appId page sel).2.1).nonSteamGridsCache
          = (fetchGridsForNonSteamGame gw.getGridsById st.nonSteamGridsCache c.id tp page).2.1
        ∧ (fetchGrids gw tp platform gameName st appId page sel).1
          = (fetchGridsForNonSteamGame gw.getGridsById st.nonSteamGridsCache c.id tp page).1) := by
  cases platform
  case STEAM =>
    constructor
    · simp only [fetchGrids]
      split
      · split <;> rfl
      · rfl
    · intro c hc hid
      have hc' : choosenResultSteam
          (getCandidates gw gameName st.steamGridSearchCache appId).1 sel
          (resolveSteamGridGameId gw st.steamGridSteamAppIdMap appId).1 = some c := hc
      simp [fetchGrids, hc', hid]
  case NON_STEAM =>
    constructor
    · simp only [fetchGrids]
      split
      · split <;> rfl
      · rfl
    · intro c hc hid
      have hc' : choosenResultNonSteam
          (getCandidates gw gameName st.steamGridSearchCache appId).1 sel gameName
          = some c := hc
      simp [fetchGrids, hc', hid]

/-- Witness for the amended C9 at a concrete input. -/
theorem fetchGrids_routes_page_fetches_witness :
    ((fetchGrids gwA .Capsule .NON_STEAM "Foo" st0 10 0 none).2.1).steamGridsCache
        = st0.steamGridsCache
    ∧ ((fetchGrids gwA .Capsule .NON_STEAM "Foo" st0 10 0 none).2.1).nonSteamGridsCache
        = (fetchGridsForNonSteamGame gwA.getGridsById st0.nonSteamGridsCache 5 .Capsule 0).2.1 :=
  ⟨(fetchGrids_routes_page_fetches gwA .Capsule .NON_STEAM "Foo" st0 10 0 none).1,
   ((fetchGrids_routes_page_fetches gwA .Capsule .NON_STEAM "Foo" st0 10 0 none).2
     ⟨5, "Foo", some 1⟩ (by decide) (by decide)).1⟩

/-- C10: a STEAM-platform `fetchGrids` call whose app id is absent from
the identity map performs the direct identity-resolution gateway call and
caches its result, even when an explicit provider-game selection is
supplied — and a supplied non-empty selection makes the chosen candidate
independent of the resolved identity. -/
theorem fetchGrids_resolves_identity_despite_selection (gw : Gateway) (tp : GridTypes)
    (gameName : String) (st : CCState) (appId page : Nat) (sel : Option String)
    (hmiss : st.steamGridSteamAppIdMap appId = none) :
    ((fetchGrids gw tp .STEAM gameName st appId page sel).2.2).idLookups = 1
    ∧ ((fetchGrids gw tp .STEAM gameName st appId page sel).2.1).steamGridSteamAppIdMap appId
        = some (natToStr (gw.getGameBySteamAppId appId).id)
    ∧ (∀ (s : String) (results : List SGDBGame) (gid₁ gid₂ : String),
        s ≠ "" → sel = some s →
        choosenResultSteam results sel gid₁ = choosenResultSteam results sel gid₂) := by
  have hres : resolveSteamGridGameId gw st.steamGridSteamAppIdMap appId
      = (natToStr (gw.getGameBySteamAppId appId).id,
         fun k => if k = appId then some (natToStr (gw.getGameBySteamAppId appId).id)
                  else st.steamGridSteamAppIdMap k, 1) := by
    simp [resolveSteamGridGameId, jsFalsyOptStr, hmiss]
  refine ⟨?_, ?_, ?_⟩
  · simp only [fetchGrids, hres]
    split
    · split <;> rfl
    · rfl
  · simp only [fetchGrids, hres]
    split
    · split <;> simp
    · simp
  · intro s results gid₁ gid₂ hs hsel
    subst hsel
    have hf : jsFalsyOptStr (some s) = false := by simp [jsFalsyOptStr, hs]
    simp [choosenResultSteam, hf]

/-- Witness for C10 at a concrete input. -/
theorem fetchGrids_resolves_identity_despite_selection_witness :
    ((fetchGrids gwA .Capsule .STEAM "Foo" st0 10 0 (some "5")).2.2).idLookups = 1
    ∧ ((fetchGrids gwA .Capsule .STEAM "Foo" st0 10 0 (some "5")).2.1).steamGridSteamAppIdMap 10
        = some (natToStr (gwA.getGameBySteamAppId 10).id)
    ∧ choosenResultSteam [gameFoo] (some "5") "1" = choosenResultSteam [gameFoo] (some "5") "2" :=
  ⟨(fetchGrids_resolves_identity_despite_selection gwA .Capsule "Foo" st0 10 0 (some "5") rfl).1,
   (fetchGrids_resolves_identity_despite_selection gwA .Capsule "Foo" st0 10 0 (some "5") rfl).2.1,
   (fetchGrids_resolves_identity_despite_selection gwA .Capsule "Foo" st0 10 0 (some "5") rfl).2.2
     "5" [gameFoo] "1" "2" (by decide) rfl⟩
